import Mathlib

/-!
Shallow embedding of the Pygame-Utils UI toolkit (`utils/ui.py`) and the JSON
persistence helper (`utils/json_save.py`), together with theorems settling the
specification claims about them.

Modelling conventions:
* Python strings are modelled as `List Char`; colors as abstract `Nat × Nat × Nat`
  triples; callables are identified by `Nat` ids, and an invocation of a callable
  is recorded in an output trace rather than executed.
* Class-level mutable state (`Canvas.graphic_elements`, `EventManager.funcs`, ...)
  is threaded explicitly through the functions that mutate it.
* `sys.exit()` / raised exceptions are modelled by stopping the event loop /
  returning `Except.error`.
-/

namespace PygameUtils

/-! ## `Graphic` and the parent chain (`utils/ui.py`, class `Graphic`)

A `Graphic` holds its own `visible` flag and an optional `parent` panel.
The chain of parents is linear, so we encode a graphic together with its
parent chain as a linear inductive: `root v` is a graphic with `parent = None`,
`child v p` is a graphic whose `parent` is the graphic `p`. -/

inductive Graphic : Type where
  | root (visible : Bool)
  | child (visible : Bool) (parent : Graphic)
deriving DecidableEq, Repr

def Graphic.visible : Graphic → Bool
  | .root v => v
  | .child v _ => v

def Graphic.parent : Graphic → Option Graphic
  | .root _ => none
  | .child _ p => some p

/-- `Graphic.is_rendered` (ui.py lines 225–229):
`visible and parent.is_rendered` when a parent is set, else `visible`. -/
def is_rendered : Graphic → Bool
  | .root v => v
  | .child v p => v && is_rendered p

/-- The `visible` flags along the chain from the graphic itself up to the root
(index 0 is the graphic's own flag, indices ≥ 1 are its ancestors). -/
def chainVisibles : Graphic → List Bool
  | .root v => [v]
  | .child v p => v :: chainVisibles p

/-- Toggle (`x.visible = not x.visible`) the `visible` flag of the node at
depth `k` of the chain (depth 0 = the graphic itself, depth ≥ 1 = ancestors);
out-of-range depths leave the chain unchanged. -/
def toggleAt : Graphic → Nat → Graphic
  | .root v, 0 => .root (!v)
  | .root v, _ + 1 => .root v
  | .child v p, 0 => .child (!v) p
  | .child v p, k + 1 => .child v (toggleAt p k)

theorem is_rendered_eq_all (g : Graphic) :
    is_rendered g = (chainVisibles g).all (fun b => b) := by
  induction g with
  | root v => simp [is_rendered, chainVisibles]
  | child v p ih => simp [is_rendered, chainVisibles, ih]

theorem chainVisibles_toggleAt (g : Graphic) (k : Nat) (hk : k < (chainVisibles g).length) :
    chainVisibles (toggleAt g k) =
      (chainVisibles g).set k (!(chainVisibles g).getD k false) := by
  induction g generalizing k with
  | root v =>
    match k with
    | 0 => simp [chainVisibles, toggleAt]
    | k + 1 => simp [chainVisibles] at hk
  | child v p ih =>
    match k with
    | 0 => simp [chainVisibles, toggleAt]
    | k + 1 =>
      simp only [chainVisibles, List.length_cons, Nat.add_lt_add_iff_right] at hk
      simp [chainVisibles, toggleAt, ih k hk, List.set]

theorem toggleAt_visible (g : Graphic) (k : Nat) (hk : 0 < k) :
    (toggleAt g k).visible = g.visible := by
  cases g with
  | root v => cases k with
    | zero => exact absurd hk (by simp)
    | succ k => simp [toggleAt, Graphic.visible]
  | child v p => cases k with
    | zero => exact absurd hk (by simp)
    | succ k => simp [toggleAt, Graphic.visible]

/-- Toggling entry `k` of a list of flags flips the conjunction iff all the
other flags are true. -/
theorem all_set_not (l : List Bool) (k : Nat) (hk : k < l.length) :
    ((l.set k (!(l.getD k false))).all (fun b => b) ≠ l.all (fun b => b)) ↔
      ((l.eraseIdx k).all (fun b => b) = true) := by
  induction l generalizing k with
  | nil => simp at hk
  | cons a l ih =>
    match k with
    | 0 =>
      cases a <;> simp [List.set, List.eraseIdx, List.all_cons]
    | k + 1 =>
      simp only [List.length_cons, Nat.add_lt_add_iff_right] at hk
      have := ih k hk
      cases a <;>
        simp_all [List.set, List.eraseIdx, List.all_cons]

end PygameUtils

namespace PygameUtils

/-- `is_rendered` is `visible` AND (`parent` is none OR the parent's
`is_rendered`), exactly the recursion of ui.py lines 225–229. -/
theorem is_rendered_def_eq (g : Graphic) :
    is_rendered g = (g.visible &&
      (match g.parent with
       | none => true
       | some p => is_rendered p)) := by
  cases g <;> simp [is_rendered, Graphic.visible, Graphic.parent]

/-- C1 (counterexample to the claim as stated): take a graphic `g` with
`visible = true`, whose parent has `visible = false` and whose grandparent (the
root) has `visible = true`. Toggling the grandparent's `visible` flag does NOT
change `is_rendered g` (it is `false` before and after, because the parent is
hidden), refuting "toggling any ancestor's visible flag changes
`is_rendered(g)`". -/
theorem is_rendered_toggle_counterexample :
    (toggleAt (Graphic.child true (Graphic.child false (Graphic.root true))) 2).visible
        = (Graphic.child true (Graphic.child false (Graphic.root true))).visible
      ∧ is_rendered (toggleAt (Graphic.child true (Graphic.child false (Graphic.root true))) 2)
        = is_rendered (Graphic.child true (Graphic.child false (Graphic.root true)))
      ∧ is_rendered (Graphic.child true (Graphic.child false (Graphic.root true))) = false := by
  decide

/-- C1 (amended): `is_rendered g` equals `g.visible` AND (parent absent OR
parent's `is_rendered`), i.e. the AND of `visible` over the whole parent chain;
toggling the `visible` flag of the ancestor at depth `k ≥ 1` never modifies
`g.visible`, and it changes `is_rendered g` exactly when every OTHER flag in
the chain is true. -/
theorem is_rendered_chain_and_toggle (g : Graphic) (k : Nat)
    (h1 : 0 < k) (h2 : k < (chainVisibles g).length) :
    is_rendered g = (g.visible &&
        (match g.parent with
         | none => true
         | some p => is_rendered p))
      ∧ is_rendered g = (chainVisibles g).all (fun b => b)
      ∧ (toggleAt g k).visible = g.visible
      ∧ ((is_rendered (toggleAt g k) ≠ is_rendered g) ↔
          ((chainVisibles g).eraseIdx k).all (fun b => b) = true) := by
  refine ⟨is_rendered_def_eq g, is_rendered_eq_all g, toggleAt_visible g k h1, ?_⟩
  rw [is_rendered_eq_all, is_rendered_eq_all, chainVisibles_toggleAt g k h2]
  exact all_set_not (chainVisibles g) k h2

/-- Witness for `is_rendered_chain_and_toggle` at a concrete two-ancestor
chain and depth 1. -/
theorem is_rendered_chain_and_toggle_witness :
    is_rendered (Graphic.child true (Graphic.child true (Graphic.root true)))
        = ((Graphic.child true (Graphic.child true (Graphic.root true))).visible &&
          (match (Graphic.child true (Graphic.child true (Graphic.root true))).parent with
           | none => true
           | some p => is_rendered p))
      ∧ is_rendered (Graphic.child true (Graphic.child true (Graphic.root true)))
        = (chainVisibles (Graphic.child true (Graphic.child true (Graphic.root true)))).all (fun b => b)
      ∧ (toggleAt (Graphic.child true (Graphic.child true (Graphic.root true))) 1).visible
        = (Graphic.child true (Graphic.child true (Graphic.root true))).visible
      ∧ ((is_rendered (toggleAt (Graphic.child true (Graphic.child true (Graphic.root true))) 1)
            ≠ is_rendered (Graphic.child true (Graphic.child true (Graphic.root true)))) ↔
          ((chainVisibles (Graphic.child true (Graphic.child true (Graphic.root true)))).eraseIdx 1).all
            (fun b => b) = true) :=
  is_rendered_chain_and_toggle (Graphic.child true (Graphic.child true (Graphic.root true))) 1
    (by decide) (by decide)

/-! ## `Canvas` (ui.py, class `Canvas`)

The registry `Canvas.graphic_elements` is an ordered list; every `Graphic`
constructor appends itself (`add_managed_object`), `remove_managed_object`
removes the first matching entry (`list.remove`), and
`update_managed_objects` swaps the whole list. An element of the registry is
a drawable identified by an id together with its visibility chain. -/

structure CElem where
  id : Nat
  g : Graphic
deriving DecidableEq, Repr

inductive CanvasOp where
  | register (e : CElem)
  | deregister (e : CElem)
  | replaceAll (es : List CElem)
deriving DecidableEq, Repr

/-- One registry mutation: `add_managed_object` appends,
`remove_managed_object` removes the first matching entry,
`update_managed_objects` replaces the whole list. -/
def applyOp (es : List CElem) : CanvasOp → List CElem
  | .register e => es ++ [e]
  | .deregister e => es.erase e
  | .replaceAll es' => es'

/-- `Canvas.draw` (ui.py lines 268–276): returns early on an empty registry,
then invokes `draw` on each registered element whose `is_rendered` is true, in
registration order. The result is the ordered list of elements whose draw
operation is invoked. -/
def canvas_draw (es : List CElem) : List CElem :=
  if es.isEmpty then []
  else es.filter (fun e => is_rendered e.g)

/-- C2: for every registry state reachable by any sequence of
register/deregister/replace-all operations from the initial empty registry, a
`Canvas.draw` call invokes the draw operation of exactly the currently
registered elements whose `is_rendered` is true, in registration order; an
element registered once is drawn exactly once if rendered and zero times if
not. -/
theorem canvas_draw_spec (ops : List CanvasOp) :
    canvas_draw (ops.foldl applyOp []) =
        (ops.foldl applyOp []).filter (fun e => is_rendered e.g)
      ∧ ∀ e : CElem, (canvas_draw (ops.foldl applyOp [])).count e =
          (if is_rendered e.g then (ops.foldl applyOp []).count e else 0) := by
  have hdraw : ∀ l : List CElem, canvas_draw l = l.filter (fun e => is_rendered e.g) := by
    intro l
    cases l <;> simp [canvas_draw]
  refine ⟨hdraw _, fun e => ?_⟩
  rw [hdraw]
  by_cases h : is_rendered e.g
  · simp [h, List.count_filter]
  · have hz : List.count e (List.filter (fun e => is_rendered e.g) (ops.foldl applyOp [])) = 0 := by
      rw [List.count_eq_zero]
      intro hmem
      exact h (List.mem_filter.mp hmem).2
    simp [h, hz]

/-! ## `EventManager` (ui.py, class `EventManager`)

Class-level state: `on_quit` (optional callable), `funcs` (list of free-form
callbacks), `graphic_events` (list of registered `Graphic_Event` handlers).
Callables/handlers are identified by `Nat` ids; invoking one is recorded as a
`DispatchAction` in an output trace. -/

structure EMState where
  on_quit : Option Nat
  funcs : List Nat
  graphic_events : List Nat
deriving DecidableEq, Repr

inductive UEvent where
  | quit
  | other (data : Nat)
deriving DecidableEq, Repr

inductive DispatchAction where
  | quitCallback (f : Nat)
  | terminated
  | callFunc (f : Nat) (e : UEvent)
  | handleEvent (g : Nat) (e : UEvent)
deriving DecidableEq, Repr

/-- `EventManager.handle_events` (ui.py lines 184–208), over the drained batch
of pending events. A `pygame.QUIT` event runs the quit callback (if set) and
then `pygame.quit(); sys.exit()` — modelled as a `terminated` action that stops
the loop. Any other event is passed to every function in `funcs`, then — after
the `if not cls.graphic_events: continue` short-circuit — to
`handle_event` of every handler in `graphic_events`. -/
def handle_events (st : EMState) : List UEvent → List DispatchAction
  | [] => []
  | e :: rest =>
    match e with
    | .quit =>
      (match st.on_quit with
       | some f => [DispatchAction.quitCallback f]
       | none => []) ++ [DispatchAction.terminated]
    | .other d =>
      (st.funcs.map fun f => DispatchAction.callFunc f (.other d)) ++
        (if st.graphic_events.isEmpty then []
         else st.graphic_events.map fun g => DispatchAction.handleEvent g (.other d)) ++
        handle_events st rest

/-- C4, spec side: transcription of the claim's described dispatch order — for
a quit event, the quit callback (if any) exactly once, then termination with no
further events processed; for any other event, every free-form callback in
registration order, then `handle_event` on every registered handler in
registration order. -/
def handle_events_claim (st : EMState) : List UEvent → List DispatchAction
  | [] => []
  | e :: rest =>
    match e with
    | .quit =>
      (match st.on_quit with
       | some f => [DispatchAction.quitCallback f]
       | none => []) ++ [DispatchAction.terminated]
    | .other d =>
      (st.funcs.map fun f => DispatchAction.callFunc f (.other d)) ++
        (st.graphic_events.map fun g => DispatchAction.handleEvent g (.other d)) ++
        handle_events_claim st rest

/-- C4: the dispatch trace of `EventManager.handle_events` coincides with the
claim's description for every batch of pending events — the empty-registry
short-circuit in the code is behaviourally invisible. -/
theorem handle_events_eq_claim (st : EMState) (evs : List UEvent) :
    handle_events st evs = handle_events_claim st evs := by
  induction evs with
  | nil => rfl
  | cons e rest ih =>
    cases e with
    | quit => rfl
    | other d =>
      simp only [handle_events, handle_events_claim, ih]
      by_cases h : st.graphic_events.isEmpty
      · rw [if_pos h, List.isEmpty_iff.mp h]
        simp
      · rw [if_neg h]

/-! ## `EventManager.set_events` (ui.py lines 142–165)

The `call_backs` parameter is a callable, a list of callables, or omitted
(`None`); the code guards the assignment with Python truthiness
(`if call_backs:`), under which `None` and the empty list are falsy while a
callable and a non-empty list are truthy. -/

inductive CallbacksArg where
  | noArg
  | single (f : Nat)
  | funcList (fs : List Nat)
deriving DecidableEq, Repr

/-- Python truthiness of the `call_backs` argument. -/
def CallbacksArg.truthy : CallbacksArg → Bool
  | .noArg => false
  | .single _ => true
  | .funcList fs => !fs.isEmpty

/-- `EventManager.set_events`: replaces `funcs` only when `call_backs` is
truthy (wrapping a single callable in a list), and always assigns `on_quit`. -/
def set_events (st : EMState) (call_backs : CallbacksArg) (on_quit : Option Nat) : EMState :=
  let st1 :=
    if call_backs.truthy then
      match call_backs with
      | .funcList fs => { st with funcs := fs }
      | .single f => { st with funcs := [f] }
      | .noArg => st
    else st
  { st1 with on_quit := on_quit }

/-- C7 (counterexample to the claim as stated): calling `set_events` with an
explicitly empty callback list does NOT clear `funcs` — the empty list is
falsy, so the prior callback list `[5]` survives, contradicting "the free-form
callback list equals the given callbacks". -/
theorem set_events_empty_list_counterexample :
    (set_events ⟨none, [5], []⟩ (CallbacksArg.funcList []) (some 9)).funcs = [5]
      ∧ [5] ≠ ([] : List Nat) := by
  decide

/-- C7 (amended): after `set_events`, `funcs` equals the given list when it is
non-empty, `[f]` when a single callable `f` is given, and is left unchanged
when the argument is omitted or an empty list; `on_quit` always becomes the
given value and `graphic_events` is untouched. -/
theorem set_events_amended (st : EMState) (q : Option Nat) :
    (∀ f, (set_events st (CallbacksArg.single f) q).funcs = [f])
      ∧ (∀ fs, fs ≠ [] → (set_events st (CallbacksArg.funcList fs) q).funcs = fs)
      ∧ (set_events st (CallbacksArg.funcList []) q).funcs = st.funcs
      ∧ (set_events st CallbacksArg.noArg q).funcs = st.funcs
      ∧ (∀ cb, (set_events st cb q).on_quit = q)
      ∧ (∀ cb, (set_events st cb q).graphic_events = st.graphic_events) := by
  refine ⟨?_, ?_, ?_, ?_, ?_, ?_⟩
  · intro f
    simp [set_events, CallbacksArg.truthy]
  · intro fs hfs
    cases fs with
    | nil => exact absurd rfl hfs
    | cons a l => simp [set_events, CallbacksArg.truthy]
  · simp [set_events, CallbacksArg.truthy]
  · simp [set_events, CallbacksArg.truthy]
  · intro cb
    cases cb with
    | noArg => simp [set_events, CallbacksArg.truthy]
    | single f => simp [set_events, CallbacksArg.truthy]
    | funcList fs => cases fs <;> simp [set_events, CallbacksArg.truthy]
  · intro cb
    cases cb with
    | noArg => simp [set_events, CallbacksArg.truthy]
    | single f => simp [set_events, CallbacksArg.truthy]
    | funcList fs => cases fs <;> simp [set_events, CallbacksArg.truthy]

/-- Witness for `set_events_amended`: replacing a prior callback list with a
concrete non-empty list. -/
theorem set_events_amended_witness :
    (set_events ⟨some 1, [5], [2]⟩ (CallbacksArg.funcList [7, 8]) (some 3)).funcs = [7, 8] :=
  (set_events_amended ⟨some 1, [5], [2]⟩ (some 3)).2.1 [7, 8] (by decide)

/-! ## `Button` (ui.py, class `Button`)

Geometry: a pygame `Rect`'s `collidepoint` is inclusive of the top-left edge
and exclusive of the bottom-right edge. Colors are opaque RGB triples. The
mutable state relevant to the claims is the visibility chain (`Graphic`
superclass), the rectangle, the four configured colors, `current_color`,
`disabled` and `pressed`. The user on-click callback is not executed in the
model; its invocation is recorded as a `BAction.clickFired` trace entry, and
the pressed-flag clearing of `button_release` as `BAction.pressedCleared`, so
the trace order reflects the execution order inside `handle_event`. -/

structure Rect where
  x : Int
  y : Int
  w : Int
  h : Int
deriving DecidableEq, Repr

def Rect.collidepoint (r : Rect) (p : Int × Int) : Bool :=
  decide (r.x ≤ p.1) && decide (p.1 < r.x + r.w) &&
    decide (r.y ≤ p.2) && decide (p.2 < r.y + r.h)

abbrev ColorV := Nat × Nat × Nat

structure Button where
  g : Graphic
  rect : Rect
  color : ColorV
  hover_color : ColorV
  pressed_color : ColorV
  disabled_color : ColorV
  current_color : ColorV
  disabled : Bool
  pressed : Bool
deriving DecidableEq, Repr

/-- `Button.set_color` (ui.py lines 440–443): assigns `current_color` (the
image-tinting side effect has no bearing on the claims and carries no state we
track). -/
def Button.set_color (b : Button) (c : ColorV) : Button :=
  { b with current_color := c }

/-- `Button.set_disabled` (ui.py lines 445–447): `self.disabled = disabled;
self.set_color(self.disabled_color)` — the color assignment is unconditional. -/
def Button.set_disabled (b : Button) (disabled : Bool) : Button :=
  Button.set_color { b with disabled := disabled } b.disabled_color

/-- The color-relevant tail of `Button.__init__` (ui.py lines 404–438):
`set_color(color)`, assignment of the four color attributes,
`self.pressed = False`, then `set_disabled(disabled)`. The `disabled := false`
in the record literal is a placeholder immediately overwritten by
`set_disabled`, mirroring that Python's `self.disabled` is first assigned
inside `set_disabled`. -/
def Button.init (g : Graphic) (rect : Rect)
    (color hover_color pressed_color disabled_color : ColorV) (disabled : Bool) : Button :=
  Button.set_disabled
    { g := g, rect := rect, color := color, hover_color := hover_color,
      pressed_color := pressed_color, disabled_color := disabled_color,
      current_color := color, disabled := false, pressed := false }
    disabled

/-- `Button.mouseover` (ui.py lines 480–486), run at the start of every `draw`:
no-op when disabled or pressed, otherwise resets to the normal color and then
applies the hover color if the current mouse position is inside the rect. -/
def Button.mouseover (b : Button) (mouse_pos : Int × Int) : Button :=
  if b.disabled || b.pressed then b
  else
    let b1 := Button.set_color b b.color
    if b1.rect.collidepoint mouse_pos then Button.set_color b1 b1.hover_color else b1

inductive MouseEvent where
  | buttonDown (button : Nat) (pos : Int × Int)
  | buttonUp (button : Nat) (pos : Int × Int)
deriving DecidableEq, Repr

inductive BAction where
  | pressedSet
  | pressedCleared
  | clickFired
deriving DecidableEq, Repr

/-- `Button.button_press` (ui.py lines 506–508). -/
def Button.button_press (b : Button) : Button :=
  Button.set_color { b with pressed := true } b.pressed_color

/-- `Button.button_release` (ui.py lines 510–511). -/
def Button.button_release (b : Button) : Button :=
  { b with pressed := false }

/-- `Button.handle_event` (ui.py lines 488–504): ignore everything when
disabled or not rendered; on a left-button mouse-down inside the rect,
`button_press`; on a left-button mouse-up anywhere, `button_release` first,
then the click callback if the mouse position is inside the rect. The
returned trace lists the state-changing steps in execution order. -/
def Button.handle_event (b : Button) (e : MouseEvent) : Button × List BAction :=
  if b.disabled || !(is_rendered b.g) then (b, [])
  else
    match e with
    | .buttonDown btn pos =>
      if btn ≠ 1 then (b, [])
      else if b.rect.collidepoint pos then (b.button_press, [BAction.pressedSet])
      else (b, [])
    | .buttonUp btn pos =>
      if btn ≠ 1 then (b, [])
      else
        let b1 := b.button_release
        if b1.rect.collidepoint pos then (b1, [BAction.pressedCleared, BAction.clickFired])
        else (b1, [BAction.pressedCleared])

theorem button_handle_down_fields (b : Button) (pos : Int × Int) :
    ((b.handle_event (MouseEvent.buttonDown 1 pos)).1.disabled = b.disabled)
      ∧ ((b.handle_event (MouseEvent.buttonDown 1 pos)).1.g = b.g)
      ∧ ((b.handle_event (MouseEvent.buttonDown 1 pos)).1.rect = b.rect) := by
  unfold Button.handle_event
  by_cases hd : b.disabled
  · simp [hd]
  · by_cases hr : is_rendered b.g
    · by_cases hc : b.rect.collidepoint pos <;>
        simp [hd, hr, hc, Button.button_press, Button.set_color]
    · simp [hd, hr]

theorem button_handle_event_disabled (b : Button) (e : MouseEvent) (hd : b.disabled = true) :
    b.handle_event e = (b, []) := by
  unfold Button.handle_event
  simp [hd]

theorem button_handle_up (b : Button) (pos : Int × Int)
    (hd : b.disabled = false) (hr : is_rendered b.g = true) :
    b.handle_event (MouseEvent.buttonUp 1 pos) =
      (b.button_release,
        if b.rect.collidepoint pos then [BAction.pressedCleared, BAction.clickFired]
        else [BAction.pressedCleared]) := by
  unfold Button.handle_event
  simp only [hd, hr, Button.button_release]
  by_cases hc : b.rect.collidepoint pos <;> simp [hc]

/-- C3: for a rendered button, any left-button mouse-down at any position
followed by a left-button mouse-up: the click callback fires iff the mouse-up
position is inside the rect and the button is not disabled, regardless of
where the mouse-down occurred; and when it fires, the trace is exactly
pressed-cleared followed by click-fired, so the pressed flag is already
cleared (and remains cleared in the final state) when the callback runs. -/
theorem button_click_iff (b : Button) (dpos upos : Int × Int)
    (hrend : is_rendered b.g = true) :
    (BAction.clickFired ∈
        ((b.handle_event (MouseEvent.buttonDown 1 dpos)).1.handle_event
          (MouseEvent.buttonUp 1 upos)).2
      ↔ (b.rect.collidepoint upos = true ∧ b.disabled = false))
    ∧ (BAction.clickFired ∈
        ((b.handle_event (MouseEvent.buttonDown 1 dpos)).1.handle_event
          (MouseEvent.buttonUp 1 upos)).2 →
        ((b.handle_event (MouseEvent.buttonDown 1 dpos)).1.handle_event
            (MouseEvent.buttonUp 1 upos)).2 =
            [BAction.pressedCleared, BAction.clickFired]
          ∧ ((b.handle_event (MouseEvent.buttonDown 1 dpos)).1.handle_event
              (MouseEvent.buttonUp 1 upos)).1.pressed = false) := by
  obtain ⟨hdis, hg, hrect⟩ := button_handle_down_fields b dpos
  by_cases hd : b.disabled
  · have h1 : b.handle_event (MouseEvent.buttonDown 1 dpos) = (b, []) :=
      button_handle_event_disabled b _ hd
    have h2 : b.handle_event (MouseEvent.buttonUp 1 upos) = (b, []) :=
      button_handle_event_disabled b _ hd
    rw [h1]
    simp only [h2]
    simp [hd]
  · have hd' : (b.handle_event (MouseEvent.buttonDown 1 dpos)).1.disabled = false := by
      rw [hdis]
      exact eq_false_of_ne_true hd
    have hr' : is_rendered (b.handle_event (MouseEvent.buttonDown 1 dpos)).1.g = true := by
      rw [hg]
      exact hrend
    have hrel := button_handle_up (b.handle_event (MouseEvent.buttonDown 1 dpos)).1 upos hd' hr'
    rw [hrect] at hrel
    rw [hrel]
    by_cases hc : b.rect.collidepoint upos <;>
      simp [hc, hd, Button.button_release]

/-- A concrete visible, enabled 10×10 button at the origin, with the
constructor's default colors. -/
def sampleButton : Button :=
  { g := Graphic.root true, rect := ⟨0, 0, 10, 10⟩, color := (255, 255, 255),
    hover_color := (220, 220, 220), pressed_color := (185, 185, 185),
    disabled_color := (165, 165, 165), current_color := (255, 255, 255),
    disabled := false, pressed := false }

/-- Witness for `button_click_iff`: on `sampleButton` the mouse goes down
outside the rect and up inside it, and the callback fires after the pressed
flag clears. -/
theorem button_click_iff_witness :
    (BAction.clickFired ∈
        ((sampleButton.handle_event (MouseEvent.buttonDown 1 (50, 50))).1.handle_event
          (MouseEvent.buttonUp 1 (5, 5))).2
      ↔ (sampleButton.rect.collidepoint (5, 5) = true ∧ sampleButton.disabled = false))
    ∧ (BAction.clickFired ∈
        ((sampleButton.handle_event (MouseEvent.buttonDown 1 (50, 50))).1.handle_event
          (MouseEvent.buttonUp 1 (5, 5))).2 →
        ((sampleButton.handle_event (MouseEvent.buttonDown 1 (50, 50))).1.handle_event
            (MouseEvent.buttonUp 1 (5, 5))).2 =
            [BAction.pressedCleared, BAction.clickFired]
          ∧ ((sampleButton.handle_event (MouseEvent.buttonDown 1 (50, 50))).1.handle_event
              (MouseEvent.buttonUp 1 (5, 5))).1.pressed = false) :=
  button_click_iff sampleButton (50, 50) (5, 5) (by decide)

/-- C10: `set_disabled d` assigns `current_color := disabled_color`
unconditionally (also for `d = false`); a button constructed with
`disabled = False` therefore starts with `current_color = disabled_color`
(not the normal color, whenever the two differ), and the first
`mouseover` recomputation of a draw call replaces it with the normal or
hover color. -/
theorem button_set_disabled_color (b : Button) (d : Bool) (g : Graphic) (rect : Rect)
    (c hc pc dc : ColorV) (hne : dc ≠ c) :
    ((b.set_disabled d).current_color = b.disabled_color)
      ∧ ((b.set_disabled d).disabled = d)
      ∧ ((Button.init g rect c hc pc dc false).current_color = dc)
      ∧ ((Button.init g rect c hc pc dc false).current_color ≠ c)
      ∧ ((Button.init g rect c hc pc dc false).disabled = false)
      ∧ (∀ mpos : Int × Int,
          ((Button.init g rect c hc pc dc false).mouseover mpos).current_color =
            (if rect.collidepoint mpos then hc else c)) := by
  refine ⟨?_, ?_, ?_, ?_, ?_, ?_⟩
  · simp [Button.set_disabled, Button.set_color]
  · simp [Button.set_disabled, Button.set_color]
  · simp [Button.init, Button.set_disabled, Button.set_color]
  · simpa [Button.init, Button.set_disabled, Button.set_color] using hne
  · simp [Button.init, Button.set_disabled, Button.set_color]
  · intro mpos
    by_cases hcp : rect.collidepoint mpos <;>
      simp [Button.init, Button.set_disabled, Button.set_color, Button.mouseover, hcp]

/-- Witness for `button_set_disabled_color` at the constructor's default
colors, where `disabled_color = (165,165,165)` indeed differs from the normal
`(255,255,255)`. -/
theorem button_set_disabled_color_witness :
    (Button.init (Graphic.root true) ⟨0, 0, 150, 75⟩ (255, 255, 255) (220, 220, 220)
        (185, 185, 185) (165, 165, 165) false).current_color = (165, 165, 165) :=
  (button_set_disabled_color sampleButton false (Graphic.root true) ⟨0, 0, 150, 75⟩
    (255, 255, 255) (220, 220, 220) (185, 185, 185) (165, 165, 165) (by decide)).2.2.1

/-! ## `CheckBox` (ui.py, class `CheckBox`)

`CheckBox` overrides `Button.call_back`: it toggles `is_on` and then calls the
inherited `call_back` with the new `is_on` as the argument forwarded to the
user callback. The model returns the new state together with the Boolean
handed to the user callback. -/

structure CheckBox where
  is_on : Bool
deriving DecidableEq, Repr

/-- `CheckBox.call_back` (ui.py lines 536–538):
`self.is_on = not self.is_on; super().call_back(self.is_on)`. -/
def CheckBox.call_back (cb : CheckBox) : CheckBox × Bool :=
  let cb1 : CheckBox := { cb with is_on := !cb.is_on }
  (cb1, cb1.is_on)

/-- C6: a successful click's callback toggles `is_on` first and forwards the
new value; two consecutive clicks restore `is_on`, and the second click's
callback argument is the negation of the first's. -/
theorem checkbox_toggle_pairs (cb : CheckBox) :
    ((cb.call_back).1.is_on = !cb.is_on)
      ∧ ((cb.call_back).2 = (cb.call_back).1.is_on)
      ∧ (((cb.call_back).1.call_back).1.is_on = cb.is_on)
      ∧ (((cb.call_back).1.call_back).2 = !(cb.call_back).2) := by
  simp [CheckBox.call_back]

/-! ## `InputBox` (ui.py, class `InputBox`)

Text is modelled as a list of characters (`self.text[:-1]` is `dropLast`,
`self.text += event.unicode` appends the key's character). The four user
callbacks are recorded as trace entries carrying the argument they receive —
`call_back(func, *args)` passes `self.text` at the moment of the call. The
display re-rendering (`self._render()`) and the border-color bookkeeping are
modelled by the `border_active` flag updated by `set_border_state`. -/

structure InputBox where
  g : Graphic
  rect : Rect
  text : List Char
  active : Bool
  submit_on_return : Bool
  border_active : Bool
deriving DecidableEq, Repr

inductive Key where
  | retKey
  | backspace
  | char (c : Char)
deriving DecidableEq, Repr

inductive IBEvent where
  | mouseDown (pos : Int × Int)
  | keyDown (k : Key)
deriving DecidableEq, Repr

inductive IBCallback where
  | onSelect (text : List Char)
  | onValueChange (text : List Char)
  | onDelete (text : List Char)
  | onSubmit (text : List Char)
deriving DecidableEq, Repr

/-- `InputBox.set_border_state` (ui.py lines 608–609). -/
def InputBox.set_border_state (ib : InputBox) : InputBox :=
  { ib with border_active := ib.active }

/-- `InputBox.submit` (ui.py lines 602–606): fire on-submit with the current
text, then clear the text, deactivate, and recompute the border. -/
def InputBox.submit (ib : InputBox) : InputBox × List IBCallback :=
  let calls := [IBCallback.onSubmit ib.text]
  let ib1 := { ib with text := [], active := false }
  (ib1.set_border_state, calls)

/-- `InputBox.handle_event` (ui.py lines 574–600): ignore events when not
rendered; a mouse-down inside the rect fires on-select (with the current
text) and toggles `active`, a mouse-down outside forces inactive, both
followed by `set_border_state`; a key-down while active runs `submit` on
Return (when `submit_on_return`), fires on-delete and then drops the last
character on Backspace, and fires on-value-change and then appends the
character for any other key. -/
def InputBox.handle_event (ib : InputBox) (e : IBEvent) : InputBox × List IBCallback :=
  if !(is_rendered ib.g) then (ib, [])
  else
    match e with
    | .mouseDown pos =>
      if ib.rect.collidepoint pos then
        ((InputBox.set_border_state { ib with active := !ib.active }),
          [IBCallback.onSelect ib.text])
      else
        ((InputBox.set_border_state { ib with active := false }), [])
    | .keyDown k =>
      if !ib.active then (ib, [])
      else
        match k with
        | .retKey => if ib.submit_on_return then ib.submit else (ib, [])
        | .backspace =>
          ({ ib with text := ib.text.dropLast }, [IBCallback.onDelete ib.text])
        | .char c =>
          ({ ib with text := ib.text ++ [c] }, [IBCallback.onValueChange ib.text])

/-- Sequential processing of a list of events, concatenating the callback
traces. -/
def InputBox.handle_all (ib : InputBox) : List IBEvent → InputBox × List IBCallback
  | [] => (ib, [])
  | e :: es =>
    let r := ib.handle_event e
    let rest := r.1.handle_all es
    (rest.1, r.2 ++ rest.2)

/-- An active, rendered input box holding the text "ab". -/
def sampleInputBox : InputBox :=
  { g := Graphic.root true, rect := ⟨0, 0, 150, 35⟩, text := ['a', 'b'],
    active := true, submit_on_return := true, border_active := true }

/-- C5 (counterexample to the claim as stated): on an active input box with
text "ab", one Backspace leaves text "a" but fires on-delete with the
PRE-deletion text "ab", not the resulting text "a" — the code invokes the
callback before truncating. -/
theorem inputbox_backspace_counterexample :
    (sampleInputBox.handle_event (IBEvent.keyDown Key.backspace)).1.text = ['a']
      ∧ (sampleInputBox.handle_event (IBEvent.keyDown Key.backspace)).2 =
          [IBCallback.onDelete ['a', 'b']]
      ∧ (sampleInputBox.handle_event (IBEvent.keyDown Key.backspace)).2 ≠
          [IBCallback.onDelete ['a']] := by
  decide

theorem inputbox_char_step (ib : InputBox) (c : Char)
    (hrend : is_rendered ib.g = true) (hact : ib.active = true) :
    ib.handle_event (IBEvent.keyDown (Key.char c)) =
      ({ ib with text := ib.text ++ [c] }, [IBCallback.onValueChange ib.text]) := by
  unfold InputBox.handle_event
  simp [hrend, hact]

theorem inputbox_type_chars (cs : List Char) :
    ∀ ib : InputBox, is_rendered ib.g = true → ib.active = true →
      (ib.handle_all (cs.map fun c => IBEvent.keyDown (Key.char c))).1.text = ib.text ++ cs
        ∧ (ib.handle_all (cs.map fun c => IBEvent.keyDown (Key.char c))).1.active = true
        ∧ (ib.handle_all (cs.map fun c => IBEvent.keyDown (Key.char c))).1.g = ib.g := by
  induction cs with
  | nil => intro ib _ hact; simp [InputBox.handle_all, hact]
  | cons c cs ih =>
    intro ib hrend hact
    have hstep := inputbox_char_step ib c hrend hact
    simp only [List.map_cons, InputBox.handle_all, hstep]
    have := ih { ib with text := ib.text ++ [c] } hrend hact
    simpa using this

/-- C5 (amended): on an active, rendered input box — typing characters
c1..cn appends them in order (so from empty text the text becomes c1..cn);
one Backspace removes exactly the last character but fires on-delete with the
PRE-deletion text; any other character key appends that character but fires
on-value-change with the PRE-append text (each callback receives the text as
it is at the moment of invocation, before the mutation); Return with
`submit_on_return = true` fires on-submit with the pre-clear text, then
clears the text and forces the inactive state. -/
theorem inputbox_keys_amended (ib : InputBox)
    (hrend : is_rendered ib.g = true) (hact : ib.active = true) :
    (∀ cs : List Char,
        (ib.handle_all (cs.map fun c => IBEvent.keyDown (Key.char c))).1.text = ib.text ++ cs)
      ∧ ((ib.handle_event (IBEvent.keyDown Key.backspace)).1.text = ib.text.dropLast
          ∧ (ib.handle_event (IBEvent.keyDown Key.backspace)).2 =
              [IBCallback.onDelete ib.text])
      ∧ (∀ c : Char,
          (ib.handle_event (IBEvent.keyDown (Key.char c))).1.text = ib.text ++ [c]
            ∧ (ib.handle_event (IBEvent.keyDown (Key.char c))).2 =
                [IBCallback.onValueChange ib.text])
      ∧ (ib.submit_on_return = true →
          (ib.handle_event (IBEvent.keyDown Key.retKey)).2 = [IBCallback.onSubmit ib.text]
            ∧ (ib.handle_event (IBEvent.keyDown Key.retKey)).1.text = []
            ∧ (ib.handle_event (IBEvent.keyDown Key.retKey)).1.active = false) := by
  refine ⟨fun cs => (inputbox_type_chars cs ib hrend hact).1, ?_, ?_, ?_⟩
  · unfold InputBox.handle_event
    simp [hrend, hact]
  · intro c
    rw [inputbox_char_step ib c hrend hact]
    exact ⟨rfl, rfl⟩
  · intro hsub
    unfold InputBox.handle_event
    simp [hrend, hact, hsub, InputBox.submit, InputBox.set_border_state]

/-- Witness for `inputbox_keys_amended`: typing "hi" into an initially empty
active box yields the text "hi". -/
theorem inputbox_keys_amended_witness :
    (InputBox.handle_all
        { g := Graphic.root true, rect := ⟨0, 0, 150, 35⟩, text := [],
          active := true, submit_on_return := true, border_active := true }
        (['h', 'i'].map fun c => IBEvent.keyDown (Key.char c))).1.text = ['h', 'i'] :=
  ((inputbox_keys_amended
      { g := Graphic.root true, rect := ⟨0, 0, 150, 35⟩, text := [],
        active := true, submit_on_return := true, border_active := true }
      (by decide) (by decide)).1 ['h', 'i'])

/-! ## `JsonSave` (utils/json_save.py)

The persistence helper works on one JSON file holding a single top-level
object. The file system is modelled as the state of that one file: `none`
means the file does not exist; otherwise it holds either a parseable JSON
object (an association list with unique keys) or contents that `json.load`
cannot parse (`unparseable` — this includes the empty file that
`set_contents(path, dict())` leaves behind, since `if contents:` is false for
an empty dict and nothing is written to the truncated file). `json.dump`
always writes parseable JSON. A raised `json.decoder.JSONDecodeError` is
modelled as `Except.error JsonError.decodeError`. -/

inductive JVal where
  | null
  | jbool (b : Bool)
  | num (n : Int)
  | str (s : List Char)
  | arr (xs : List JVal)
  | obj (kvs : List (String × JVal))

/-- Python falsiness of a JSON value (`if not value:`): `None`, `False`, `0`,
the empty string, the empty list and the empty dict are falsy. -/
def falsy : JVal → Bool
  | .null => true
  | .jbool b => !b
  | .num n => n == 0
  | .str s => s.isEmpty
  | .arr xs => xs.isEmpty
  | .obj kvs => kvs.isEmpty

inductive FileData where
  | jsonObj (kvs : List (String × JVal))
  | unparseable

/-- The state of the JSON file: `none` = the file does not exist. -/
def JFile : Type := Option FileData

inductive JsonError where
  | decodeError
deriving DecidableEq, Repr

/-- `data[key] = value` on a Python dict: replace the value of an existing
key, else append the new pair. -/
def dictSet (kvs : List (String × JVal)) (key : String) (value : JVal) :
    List (String × JVal) :=
  if kvs.any (fun p => p.1 == key) then
    kvs.map (fun p => if p.1 == key then (key, value) else p)
  else kvs ++ [(key, value)]

/-- `data.get(key)` on a Python dict: the stored value, or `None` (absent). -/
def dictGet (kvs : List (String × JVal)) (key : String) : Option JVal :=
  (kvs.find? (fun p => p.1 == key)).map (fun p => p.2)

/-- `JsonSave.set_contents` (json_save.py lines 106–124): truncate/create the
file, then `json.dump` the contents only if they are truthy — a falsy
`contents` (omitted, or the empty dict) leaves the truncated file empty,
which is not parseable JSON. -/
def set_contents (contents : Option (List (String × JVal))) : JFile :=
  match contents with
  | some kvs => if kvs.isEmpty then some FileData.unparseable else some (FileData.jsonObj kvs)
  | none => some FileData.unparseable

/-- `JsonSave.get_contents` (json_save.py lines 126–150): if the file does not
exist, create it via `set_contents(path, dict())` and return the empty dict;
otherwise `json.load` it, catching `JSONDecodeError` by discarding the corrupt
contents and using the empty dict. Returns the dict together with the
resulting file state. -/
def get_contents (f : JFile) : List (String × JVal) × JFile :=
  match f with
  | none => ([], set_contents (some []))
  | some (FileData.jsonObj kvs) => (kvs, f)
  | some FileData.unparseable => ([], f)

/-- `JsonSave.save` (json_save.py lines 52–73): `get_contents`, set the key,
and `json.dump` the whole object back. -/
def save (f : JFile) (key : String) (value : JVal) : JFile :=
  let r := get_contents f
  some (FileData.jsonObj (dictSet r.1 key value))

/-- `JsonSave.load` (json_save.py lines 75–104): if the file does not exist,
`save(path, key, default)` first; then open it and run `json.load(f).get(key)`
directly — WITHOUT any exception handling, so an existing unparseable file
raises `JSONDecodeError`. If the retrieved value is falsy (including `None`
for an absent key), re-save the default under the key and return the
default. -/
def load (f : JFile) (key : String) (default_value : JVal) :
    Except JsonError (JVal × JFile) :=
  let f1 := match f with
    | none => save f key default_value
    | some _ => f
  match f1 with
  | some (FileData.jsonObj kvs) =>
    match dictGet kvs key with
    | some v =>
      if falsy v then Except.ok (default_value, save f1 key default_value)
      else Except.ok (v, f1)
    | none => Except.ok (default_value, save f1 key default_value)
  | _ => Except.error JsonError.decodeError

/-- C8: if the value stored under the key in an existing parseable file is
falsy (or the key is absent), `load` returns the default and re-writes the
default under that key, leaving all other keys as `save` would. -/
theorem load_falsy_returns_default (kvs : List (String × JVal)) (key : String)
    (default_value : JVal)
    (h : (match dictGet kvs key with
          | some v => falsy v
          | none => true) = true) :
    load (some (FileData.jsonObj kvs)) key default_value =
      Except.ok (default_value, some (FileData.jsonObj (dictSet kvs key default_value))) := by
  unfold load
  match hv : dictGet kvs key with
  | none => simp [hv, save, get_contents]
  | some v =>
    rw [hv] at h
    simp only at h
    simp [hv, h, save, get_contents]

/-- Witness for `load_falsy_returns_default`: the claim's own scenario —
`save("f.json", "Score", 0)` followed by `load("f.json", "Score", 7)` returns
`7` (not `0`) and re-writes `{"Score": 7}`. -/
theorem load_falsy_returns_default_witness :
    save none "Score" (JVal.num 0) = some (FileData.jsonObj [("Score", JVal.num 0)])
      ∧ load (some (FileData.jsonObj [("Score", JVal.num 0)])) "Score" (JVal.num 7) =
          Except.ok (JVal.num 7, some (FileData.jsonObj [("Score", JVal.num 7)])) :=
  ⟨rfl, by
    rw [load_falsy_returns_default [("Score", JVal.num 0)] "Score" (JVal.num 7) (by decide)]
    rfl⟩

/-- C9 (counterexample to the claim as stated): on an existing file whose
contents are not parseable as JSON, `JsonSave.load` DOES surface the parse
error — it calls `json.load` directly with no exception handler, unlike
`get_contents`. -/
theorem load_unparseable_counterexample :
    load (some FileData.unparseable) "Score" (JVal.num 1) =
        Except.error JsonError.decodeError
      ∧ get_contents (some FileData.unparseable) = ([], some FileData.unparseable) :=
  ⟨rfl, rfl⟩

/-- C9 (amended): `get_contents` never surfaces a parse error — it discards
unparseable contents and returns the empty object with the file untouched —
but `load` surfaces the parse error exactly when the file exists with
unparseable contents (a missing file is first populated by `save`, so only
the existing-unparseable case raises). -/
theorem load_obj_isOk (kvs : List (String × JVal)) (key : String) (default_value : JVal) :
    ∃ r, load (some (FileData.jsonObj kvs)) key default_value = Except.ok r := by
  cases hv : dictGet kvs key with
  | none =>
    refine ⟨(default_value, save (some (FileData.jsonObj kvs)) key default_value), ?_⟩
    rw [load]
    simp [hv]
  | some v =>
    by_cases hf : falsy v
    · refine ⟨(default_value, save (some (FileData.jsonObj kvs)) key default_value), ?_⟩
      rw [load]
      simp [hv, hf]
    · refine ⟨(v, some (FileData.jsonObj kvs)), ?_⟩
      rw [load]
      simp [hv, hf]

theorem load_none_eq (key : String) (default_value : JVal) :
    load none key default_value =
      load (some (FileData.jsonObj (dictSet [] key default_value))) key default_value := by
  rw [load, load]
  simp [save, get_contents]

theorem corrupt_read_behaviour (key : String) (default_value : JVal) :
    (get_contents (some FileData.unparseable) = ([], some FileData.unparseable))
      ∧ (∀ f : JFile,
          (∃ e, load f key default_value = Except.error e) ↔ f = some FileData.unparseable) := by
  refine ⟨rfl, fun f => ?_⟩
  constructor
  · rintro ⟨e, he⟩
    match f with
    | none =>
      obtain ⟨r, hr⟩ := load_obj_isOk (dictSet [] key default_value) key default_value
      rw [load_none_eq, hr] at he
      exact absurd he (by simp)
    | some (FileData.jsonObj kvs) =>
      obtain ⟨r, hr⟩ := load_obj_isOk kvs key default_value
      rw [hr] at he
      exact absurd he (by simp)
    | some FileData.unparseable => rfl
  · rintro rfl
    exact ⟨JsonError.decodeError, rfl⟩

end PygameUtils
